import Mathlib

/-!
Verification of the chat-api repository core against its specification.

Shallow embedding of:
- `app/models/message.py` (the persisted `Message` document),
- `app/services/chat_service.py` (`ChatService.update_message`,
  `ChatService.delete_message`, `ChatService.get_messages`),
- `app/core/authorization.py` (`CircuitBreaker`, `AuthAPIClient.check_permission`,
  `AuthorizationService.check_permission`),
- `app/core/service_auth.py` (`ServiceTokenManager.get_token` / `_acquire_token`),
- `app/core/oauth_validator.py` (`OAuthToken.from_jwt_payload`, `decode_token_string`),
- `app/schemas/message.py` (`MessageCreate` validation with its `sanitize_content`
  validator).

State that Python mutates in place (the MongoDB store, the Redis-held breaker
state, the token-manager fields) is threaded explicitly; awaited sub-calls whose
implementations live outside this repository (Redis, MongoDB driver, the
Auth-API HTTP exchange, PyJWT's signature check) are passed in as explicit
inputs whose shape follows the library's documented behaviour.  Python
exceptions become `Except` / explicit outcome constructors.  Timestamps are
modelled as integer seconds.
-/

namespace ChatAPI

/-- The persisted message document (`app/models/message.py`, class `Message`).
`id` is the store-assigned identifier (MongoDB ObjectId, modelled as `Nat`);
`created_at` / `updated_at` are instants in seconds. -/
structure Message where
  id : Nat
  org_id : String
  group_id : String
  group_name : String
  sender_id : String
  content : String
  created_at : Int
  updated_at : Int
  is_deleted : Bool
deriving Repr, DecidableEq

/-- The message store: the `messages` collection, as the list of its documents. -/
abbrev Store := List Message

/-- Embedding of `Message.get(message_id)` — lookup by id in the collection. -/
def storeGet (store : Store) (message_id : Nat) : Option Message :=
  store.find? (fun m => m.id == message_id)

/-- Embedding of `message.save()` — persist the (partially updated) document back under its id. -/
def storeSave (store : Store) (m : Message) : Store :=
  store.map (fun old => if old.id == m.id then m else old)

/-- Typed errors raised by `ChatService` (`app/core/exceptions.py`):
`NotFoundError` maps to HTTP 404, `ForbiddenError` to HTTP 403. -/
inductive ChatError where
  | notFound (detail : String)
  | forbidden (detail : String)
deriving Repr, DecidableEq

/-- WebSocket events broadcast by `ChatService` via
`manager.broadcast_to_group` (payload reduced to the identifying fields). -/
inductive BroadcastEvent where
  | messageUpdated (group_id : String) (m : Message)
  | messageDeleted (group_id : String) (message_id : Nat)
deriving Repr, DecidableEq

/-- Structured log records emitted on the precondition ladder of
`update_message` / `delete_message`.  `crossOrgBlocked` is the
`logger.error(..., security_violation=True)` record. -/
inductive LogRecord where
  | groupMismatch (message_id : Nat)
  | crossOrgBlocked (op : String) (message_id : Nat)
  | notOwner (message_id : Nat)
deriving Repr, DecidableEq

/-- Outcome of a `ChatService` write operation: the Python return value or
raised exception, the store after the call, the broadcasts performed and the
log records emitted. -/
structure OpOutcome (α : Type) where
  result : Except ChatError α
  store : Store
  events : List BroadcastEvent
  logs : List LogRecord
deriving Repr

/-- Embedding of `ChatService.update_message` (`app/services/chat_service.py`, lines 250-377).
Precondition ladder: fetch by id (`NotFoundError` when absent), `group_id`
match (`NotFoundError` on mismatch), `org_id` match (`ForbiddenError` plus the
security-violation log on mismatch), sender ownership (`ForbiddenError`), then
write content, bump `updated_at`, save and broadcast `message_updated`. -/
def update_message (store : Store) (now : Int) (message_id : Nat)
    (group_id org_id user_id new_content : String) : OpOutcome Message :=
  match storeGet store message_id with
  | none => ⟨.error (.notFound "Message not found"), store, [], []⟩
  | some message =>
    if message.group_id ≠ group_id then
      ⟨.error (.notFound "Message not found"), store, [], [.groupMismatch message_id]⟩
    else if message.org_id ≠ org_id then
      ⟨.error (.forbidden "Not authorized to update this message"), store, [],
        [.crossOrgBlocked "update" message_id]⟩
    else if message.sender_id ≠ user_id then
      ⟨.error (.forbidden "You can only update your own messages"), store, [], []⟩
    else
      let updated := { message with content := new_content, updated_at := now }
      ⟨.ok updated, storeSave store updated,
        [.messageUpdated updated.group_id updated], []⟩

/-- Embedding of `ChatService.delete_message` (`app/services/chat_service.py`, lines 379-499).
Same ladder as `update_message`, except the ownership check is bypassed when
`is_admin` is true, and the write is a soft delete (`is_deleted := true`,
`updated_at` bumped) broadcasting `message_deleted` with the id only. -/
def delete_message (store : Store) (now : Int) (message_id : Nat)
    (group_id org_id user_id : String) (is_admin : Bool) : OpOutcome Unit :=
  match storeGet store message_id with
  | none => ⟨.error (.notFound "Message not found"), store, [], []⟩
  | some message =>
    if message.group_id ≠ group_id then
      ⟨.error (.notFound "Message not found"), store, [], [.groupMismatch message_id]⟩
    else if message.org_id ≠ org_id then
      ⟨.error (.forbidden "Not authorized to delete this message"), store, [],
        [.crossOrgBlocked "delete" message_id]⟩
    else if ¬ is_admin ∧ message.sender_id ≠ user_id then
      ⟨.error (.forbidden "You can only delete your own messages"), store, [],
        [.notOwner message_id]⟩
    else
      let deleted := { message with is_deleted := true, updated_at := now }
      ⟨.ok (), storeSave store deleted,
        [.messageDeleted deleted.group_id message_id], []⟩

/-- Group details returned by `GroupService.get_group_details`
(`app/services/group_service.py`); the service itself lives behind the
Auth-API and already folds the `org_id` comparison into a `None` result. -/
structure GroupDetails where
  name : String
  member_ids : List String
deriving Repr, DecidableEq

/-- The `$match` filter of the aggregation in `get_messages`:
`org_id = ? AND group_id = ? AND is_deleted = false`. -/
def matchFilter (org_id group_id : String) (m : Message) : Bool :=
  m.org_id == org_id && m.group_id == group_id && m.is_deleted == false

/-- Newest-first order of the `$sort` stage (`created_at` descending). -/
def newestFirst (a b : Message) : Prop :=
  b.created_at ≤ a.created_at

instance : DecidableRel newestFirst :=
  fun a b => Int.decLe b.created_at a.created_at

instance : IsTotal Message newestFirst :=
  ⟨fun a b => le_total b.created_at a.created_at⟩

instance : IsTrans Message newestFirst :=
  ⟨fun _ _ _ hab hbc => le_trans hbc hab⟩

/-- The aggregation pipeline of `ChatService.get_messages`
(`app/services/chat_service.py`, lines 195-233): `$match` on
`(org_id, group_id, is_deleted=false)`, `$sort` by `created_at` descending,
then the `$facet` producing the `$skip`/`$limit` page and the `$count` total. -/
def messagesPipeline (store : Store) (org_id group_id : String)
    (page page_size : Nat) : List Message × Nat :=
  let matched := store.filter (matchFilter org_id group_id)
  let sorted := matched.insertionSort newestFirst
  let skip := (page - 1) * page_size
  ((sorted.drop skip).take page_size, matched.length)

/-- Errors escaping `ChatService.get_messages`: the Python `TypeError` a
mis-bound call raises, and the `NotFoundError` / `ForbiddenError` of the
intended path. -/
inductive GroupAccessError where
  | typeError (detail : String)
  | notFound (detail : String)
  | forbidden (detail : String)
deriving Repr, DecidableEq

/-- Parameter names of `GroupService.get_group_details`
(`app/services/group_service.py`, lines 168-172): besides `self`, exactly
`group_id` and `expected_org_id`.  The method has no `user_token` parameter
and no keyword catch-all. -/
def getGroupDetailsParams : List String :=
  ["group_id", "expected_org_id"]

/-- Keyword arguments `ChatService._verify_group_access` passes to
`get_group_details` (`app/services/chat_service.py`, lines 537-541). -/
def getGroupDetailsCallKwargs : List String :=
  ["group_id", "expected_org_id", "user_token"]

/-- Python call binding: a keyword argument matching no parameter makes the
call raise `TypeError`; this returns the first such keyword, if any. -/
def unexpectedKwarg (params kwargs : List String) : Option String :=
  kwargs.find? (fun k => !(params.contains k))

/-- Embedding of `ChatService._verify_group_access`
(`app/services/chat_service.py`, lines 501-563) as called from
`get_messages`: the awaited `get_group_details` call binds its keyword
arguments first — the stray `user_token` keyword raises `TypeError` before
the lookup result (`group`, with `None` covering both "not found" and "org
mismatch") or the membership check can be consulted. -/
def _verify_group_access (group : Option GroupDetails) (user_id : String) :
    Except GroupAccessError GroupDetails :=
  match unexpectedKwarg getGroupDetailsParams getGroupDetailsCallKwargs with
  | some k =>
    .error (.typeError
      ("get_group_details() got an unexpected keyword argument: " ++ k))
  | none =>
    match group with
    | none => .error (.notFound "Group not found")
    | some g =>
      if user_id ∉ g.member_ids then
        .error (.forbidden "You don't have access to this group")
      else
        .ok g

/-- Embedding of `ChatService.get_messages` (`app/services/chat_service.py`,
lines 152-248): `_verify_group_access` runs first; only when it returns does
the aggregation pipeline execute. -/
def get_messages (group : Option GroupDetails) (store : Store)
    (org_id group_id user_id : String) (page page_size : Nat) :
    Except GroupAccessError (List Message × Nat) :=
  match _verify_group_access group user_id with
  | .error e => .error e
  | .ok _ => .ok (messagesPipeline store org_id group_id page page_size)

/-- Circuit-breaker states (`app/core/authorization.py`, `CircuitBreakerState`). -/
inductive BState where
  | closed
  | open_
  | half_open
deriving Repr, DecidableEq

/-- The breaker's Redis-held JSON state (`CircuitBreaker._get_state`):
`state`, `failure_count`, `last_failure_time` (an instant, in seconds) and
`half_open_attempts`. -/
structure BreakerData where
  state : BState
  failure_count : Nat
  last_failure_time : Option Int
  half_open_attempts : Nat
deriving Repr, DecidableEq

/-- The breaker's configuration (`app/config.py`): `CIRCUIT_BREAKER_THRESHOLD`,
`CIRCUIT_BREAKER_TIMEOUT` (seconds), `CIRCUIT_BREAKER_HALF_OPEN_MAX_CALLS`. -/
structure BreakerConfig where
  threshold : Nat
  timeout : Int
  half_open_max_calls : Nat
deriving Repr, DecidableEq

/-- The defaults from `app/config.py` (lines 62-64). -/
def defaultBreakerConfig : BreakerConfig :=
  { threshold := 5, timeout := 30, half_open_max_calls := 3 }

/-- The default state `CircuitBreaker._get_state` fabricates when the Redis
key is absent. -/
def initialBreaker : BreakerData :=
  { state := .closed, failure_count := 0, last_failure_time := none,
    half_open_attempts := 0 }

/-- Embedding of `CircuitBreaker.should_attempt` (`app/core/authorization.py`, lines
247-287).  Returns the `(should_attempt, current_state)` pair of the Python
function together with the breaker state as left in Redis.  While `open_`,
the gate opens only when strictly more than `timeout` seconds have elapsed
since `last_failure_time` (the Python comparison is
`(utcnow() - last_failure).total_seconds() > CIRCUIT_BREAKER_TIMEOUT`). -/
def should_attempt (cfg : BreakerConfig) (now : Int) (d : BreakerData) :
    Bool × BState × BreakerData :=
  match d.state with
  | .closed => (true, .closed, d)
  | .open_ =>
    match d.last_failure_time with
    | some lf =>
      if now - lf > cfg.timeout then
        (true, .half_open, { d with state := .half_open, half_open_attempts := 0 })
      else
        (false, .open_, d)
    | none => (false, .open_, d)
  | .half_open =>
    if d.half_open_attempts < cfg.half_open_max_calls then
      (true, .half_open, { d with half_open_attempts := d.half_open_attempts + 1 })
    else
      (false, .half_open, d)

/-- Embedding of `CircuitBreaker.record_success` (`app/core/authorization.py`, lines
289-306): a success in `half_open` closes the breaker and zeroes both
counters; in `closed` it resets the failure counter; in `open_` it is a no-op. -/
def record_success (d : BreakerData) : BreakerData :=
  match d.state with
  | .half_open =>
    { d with state := .closed, failure_count := 0, half_open_attempts := 0 }
  | .closed => { d with failure_count := 0 }
  | .open_ => d

/-- Embedding of `CircuitBreaker.record_failure` (`app/core/authorization.py`, lines
308-336): every failure increments `failure_count` and stamps
`last_failure_time`; in `closed` the breaker opens once the counter reaches
the threshold; in `half_open` any failure reopens it. -/
def record_failure (cfg : BreakerConfig) (now : Int) (d : BreakerData) :
    BreakerData :=
  let d1 := { d with failure_count := d.failure_count + 1,
                     last_failure_time := some now }
  match d.state with
  | .closed =>
    if d1.failure_count ≥ cfg.threshold then { d1 with state := .open_ } else d1
  | .half_open => { d1 with state := .open_, half_open_attempts := 0 }
  | .open_ => d1

/-- The Auth-API's reply to `POST /api/v1/authorization/check` as observed by
`AuthAPIClient.check_permission`: an HTTP status with the `allowed` boolean of
its JSON body, or one of the `httpx` exceptions the code catches. -/
inductive ASReply where
  | status (code : Nat) (allowed : Bool)
  | timeout
  | connectError
  | otherExc
deriving Repr, DecidableEq

/-- Embedding of `AuthAPIClient.check_permission` (`app/core/authorization.py`, lines
377-506).  Consults `should_attempt` first (returning `none` with the breaker
untouched when refused); an HTTP 200 returns the body's `allowed` and records
a success; an HTTP 403 returns `false` (a denial decision) and also records a
success; any other status, and any timeout / connection / unexpected error,
records a failure and returns `none`. -/
def auth_api_check (cfg : BreakerConfig) (now : Int) (d : BreakerData)
    (reply : ASReply) : Option Bool × BreakerData :=
  match should_attempt cfg now d with
  | (false, _, d1) => (none, d1)
  | (true, _, d1) =>
    match reply with
    | .status code allowed =>
      if code = 200 then (some allowed, record_success d1)
      else if code = 403 then (some false, record_success d1)
      else (none, record_failure cfg now d1)
    | .timeout => (none, record_failure cfg now d1)
    | .connectError => (none, record_failure cfg now d1)
    | .otherExc => (none, record_failure cfg now d1)

/-- Embedding of `PermissionCheckResult` (`app/core/authorization.py`, lines 51-57). -/
structure PermissionCheckResult where
  allowed : Bool
  cached : Bool
  source : String
deriving Repr, DecidableEq

/-- Outcome of `AuthorizationService.check_permission`: the returned value, or
the exception the code raises (`ForbiddenError` on denial, HTTP 503 under the
fail-closed policy). -/
inductive CheckOutcome where
  | ok (r : PermissionCheckResult)
  | forbiddenErr (detail : String)
  | serviceUnavailable (detail : String)
deriving Repr, DecidableEq

/-- Embedding of `AuthorizationService.check_permission` (`app/core/authorization.py`,
lines 528-656).  `cached` is the result of the awaited
`self.cache.get(org_id, user_id, permission)` (`none` = miss) and `apiReply`
the Auth-API exchange consumed by `auth_api_check` on a miss.  A cached or
fresh denial raises `ForbiddenError(f"Permission denied: {permission}")`; a
fresh decision is written back to the cache; an unavailable Auth-API yields
the fail-open allow or the fail-closed HTTP 503. -/
def check_permission (cfg : BreakerConfig) (now : Int) (d : BreakerData)
    (cached : Option Bool) (apiReply : ASReply) (failOpen : Bool)
    (permission : String) : CheckOutcome × BreakerData :=
  match cached with
  | some false =>
    (.forbiddenErr ("Permission denied: " ++ permission), d)
  | some true =>
    (.ok { allowed := true, cached := true, source := "cache" }, d)
  | none =>
    match auth_api_check cfg now d apiReply with
    | (some allowed, d1) =>
      if ¬ allowed then
        (.forbiddenErr ("Permission denied: " ++ permission), d1)
      else
        (.ok { allowed := true, cached := false, source := "auth_api" }, d1)
    | (none, d1) =>
      if failOpen then
        (.ok { allowed := true, cached := false, source := "fail_open_policy" }, d1)
      else
        (.serviceUnavailable "Authorization service temporarily unavailable", d1)

/-- The token-manager's mutable fields (`app/core/service_auth.py`,
`ServiceTokenManager.__init__`): `_token` and `_expires_at` (an instant, in
seconds). -/
structure TokenState where
  token : Option String
  expires_at : Option Int
deriving Repr, DecidableEq

/-- Embedding of `ServiceTokenManager._acquire_token` (`app/core/service_auth.py`, lines
169-255), given the Auth-API's token response: stores `access_token` and
`expires_at := now + expires_in` (`expires_in` defaulting to 3600 when the
response omits it). -/
def acquire_token (now : Int) (access_token : String) (expires_in : Option Int)
    (st : TokenState) : TokenState :=
  { st with token := some access_token,
            expires_at := some (now + expires_in.getD 3600) }

/-- Embedding of `ServiceTokenManager.get_token` (`app/core/service_auth.py`, lines
118-147).  Returns the cached token when `expires_at > now + 5 min`
(300 seconds); otherwise runs `_acquire_token` on the Auth-API response and
returns whatever it stored, with no further expiry check. -/
def get_token (now : Int) (access_token : String) (expires_in : Option Int)
    (st : TokenState) : String × TokenState :=
  match st.token, st.expires_at with
  | some t, some e =>
    if e > now + 300 then
      (t, st)
    else
      let st1 := acquire_token now access_token expires_in st
      (access_token, st1)
  | _, _ =>
    let st1 := acquire_token now access_token expires_in st
    (access_token, st1)

/-- A decoded JWT payload as a claim set (`None` = claim absent).  `type_` is
the payload's `"type"` claim. -/
structure JwtPayload where
  sub : Option String
  org_id : Option String
  type_ : Option String
  exp : Option Int
  iat : Option Int
  scope : Option String
  client_id : Option String
  jti : Option String
deriving Repr, DecidableEq

/-- Failures of token validation: PyJWT's `InvalidSignatureError`,
`ExpiredSignatureError`, `ImmatureSignatureError`, the explicit
`InvalidTokenError("Invalid token type")` of `decode_token_string`, and the
`KeyError` a missing required claim raises in `from_jwt_payload`. -/
inductive TokenError where
  | badSignature
  | expired
  | immature
  | badType
  | missingClaim (name : String)
deriving Repr, DecidableEq

/-- The `OAuthToken` pydantic model (`app/core/oauth_validator.py`, lines
41-61).  `org_id` is declared `Optional[str] = None`. -/
structure OAuthTokenData where
  user_id : String
  client_id : String
  scopes : List String
  org_id : Option String
  token_id : Option String
  issued_at : Int
  expires_at : Int
deriving Repr, DecidableEq

/-- Whitespace for Python's `str.strip()` and `str.split()` (space, tab,
newline, carriage return, vertical tab, form feed). -/
def isPySpace (c : Char) : Bool :=
  c = ' ' || c = '\t' || c = '\n' || c = '\x0d' || c = '\x0b' || c = '\x0c'

/-- Accumulating splitter for Python's `str.split()` with no separator:
whitespace runs separate the pieces and empty pieces are dropped. -/
def wsSplit : List Char → List Char → List String
  | [], cur => if cur.isEmpty then [] else [⟨cur.reverse⟩]
  | c :: rest, cur =>
    if isPySpace c then
      if cur.isEmpty then wsSplit rest [] else ⟨cur.reverse⟩ :: wsSplit rest []
    else
      wsSplit rest (c :: cur)

/-- Python's `str.split()` with no separator, as used on the `scope` claim
(`payload.get("scope", "").split()`). -/
def splitScopes (s : String) : List String :=
  wsSplit s.toList []

/-- Embedding of `jwt.decode(token, key, algorithms=[...], options={verify_exp, verify_iat,
verify_signature, verify_aud=False})` as called at
`app/core/oauth_validator.py` lines 109-119, per PyJWT's documented checks:
an invalid signature fails; a present `exp` with `exp ≤ now` fails as
expired; a present `iat` with `iat > now` fails as immature; the audience is
not validated; an absent `exp` or `iat` is not itself an error at this step. -/
def jwtDecode (sigValid : Bool) (now : Int) (p : JwtPayload) :
    Except TokenError JwtPayload :=
  if ¬ sigValid then
    .error .badSignature
  else if p.exp.any (fun e => e ≤ now) then
    .error .expired
  else if p.iat.any (fun i => i > now) then
    .error .immature
  else
    .ok p

/-- Embedding of `OAuthToken.from_jwt_payload` (`app/core/oauth_validator.py`, lines
62-73): `payload["sub"]` and `payload["exp"]` raise `KeyError` when absent;
`client_id` defaults to `"unknown"`, `scope` to `""`, `org_id` and `jti` are
optional, `iat` defaults to the current instant. -/
def from_jwt_payload (now : Int) (p : JwtPayload) :
    Except TokenError OAuthTokenData :=
  match p.sub with
  | none => .error (.missingClaim "sub")
  | some s =>
    match p.exp with
    | none => .error (.missingClaim "exp")
    | some e =>
      .ok { user_id := s,
            client_id := p.client_id.getD "unknown",
            scopes := splitScopes (p.scope.getD ""),
            org_id := p.org_id,
            token_id := p.jti,
            issued_at := p.iat.getD now,
            expires_at := e }

/-- Embedding of `decode_token_string` (`app/core/oauth_validator.py`, lines 92-147): run
`jwt.decode`, reject a payload whose `type` claim is not `"access"`, then
build the `OAuthToken`.  `validate_oauth_token` (the header variant, lines
150-218) performs the same decision on `credentials.credentials`. -/
def decode_token_string (sigValid : Bool) (now : Int) (p : JwtPayload) :
    Except TokenError OAuthTokenData :=
  match jwtDecode sigValid now p with
  | .error e => .error e
  | .ok payload =>
    if payload.type_ ≠ some "access" then
      .error .badType
    else
      from_jwt_payload now payload

/-- Characters that may follow `<` to open markup in the HTML tokenizer: a
tag name letter, `/` (end tag), `!` (markup declaration), `?` (bogus
comment).  A `<` followed by anything else is literal text. -/
def isTagOpener (c : Char) : Bool :=
  c.isAlpha || c = '/' || c = '!' || c = '?'

/-- Tag removal of `bleach.clean(v, tags=[], strip=True)` (called at
`app/schemas/message.py` line 21): with an empty allow-list and `strip=True`
every markup tag is removed and only the text between tags is kept.  The
`inTag` flag is the tokenizer state; an unterminated tag consumes the rest of
the input. -/
def stripTagsAux : Bool → List Char → List Char
  | _, [] => []
  | true, '>' :: rest => stripTagsAux false rest
  | true, _ :: rest => stripTagsAux true rest
  | false, '<' :: rest =>
    match rest with
    | [] => ['<']
    | c :: _ => if isTagOpener c then stripTagsAux true rest
                else '<' :: stripTagsAux false rest
  | false, c :: rest => c :: stripTagsAux false rest

/-- Character-reference decoding performed by bleach's HTML tokenizer on text:
`&amp;`, `&lt;` and `&gt;` become the characters `&`, `<` and `>` (decoded
entities are text — they do not open tags). -/
def decodeEntities : List Char → List Char
  | [] => []
  | '&' :: 'a' :: 'm' :: 'p' :: ';' :: rest => '&' :: decodeEntities rest
  | '&' :: 'l' :: 't' :: ';' :: rest => '<' :: decodeEntities rest
  | '&' :: 'g' :: 't' :: ';' :: rest => '>' :: decodeEntities rest
  | c :: rest => c :: decodeEntities rest

/-- Serialization escaping of bleach's cleaner: the characters `&`, `<` and
`>` in text are written back as `&amp;`, `&lt;` and `&gt;`. -/
def encodeEntity (c : Char) : List Char :=
  if c = '&' then ['&', 'a', 'm', 'p', ';']
  else if c = '<' then ['&', 'l', 't', ';']
  else if c = '>' then ['&', 'g', 't', ';']
  else [c]

/-- Escape every character of a text run. -/
def encodeEntities (l : List Char) : List Char :=
  l.flatMap encodeEntity

/-- Drop the trailing whitespace run of a character list. -/
def trimRight : List Char → List Char
  | [] => []
  | c :: rest =>
    if (trimRight rest).isEmpty && isPySpace c then [] else c :: trimRight rest

/-- Python `str.strip()`: drop leading and trailing whitespace. -/
def pyStrip (l : List Char) : List Char :=
  trimRight (l.dropWhile isPySpace)

/-- Embedding of `MessageCreate.sanitize_content` / `MessageUpdate.sanitize_content`
(`app/schemas/message.py`, lines 11-21 and 28-32):
`bleach.clean(v, tags=[], strip=True).strip()` — tokenize (stripping all tags
and decoding character references in text), re-serialize (escaping `&`, `<`,
`>`), then trim surrounding whitespace. -/
def sanitize_content (s : String) : String :=
  ⟨pyStrip (encodeEntities (decodeEntities (stripTagsAux false s.toList)))⟩

/-- Validation of the `MessageCreate.content` field (`app/schemas/message.py`,
lines 7-21): pydantic first enforces the field constraints
`min_length=1, max_length=10000` on the raw input, then runs the (mode
`after`) `sanitize_content` validator on the accepted value; the sanitized
result is not re-checked against the constraints.  `none` models the
pydantic `ValidationError` (HTTP 422). -/
def message_create_validate (raw : String) : Option String :=
  if 1 ≤ raw.length ∧ raw.length ≤ 10000 then
    some (sanitize_content raw)
  else
    none

/-- Recognizer for the exception outcomes of the resolver (`ForbiddenError`
and the fail-closed `HTTPException(503)` are raised, not returned). -/
def CheckOutcome.raised : CheckOutcome → Bool
  | .ok _ => false
  | .forbiddenErr _ => true
  | .serviceUnavailable _ => true

/-- Number of probes the breaker grants across `k` consecutive
`should_attempt` calls with no intervening success or failure (the instant
is irrelevant in the half-open state). -/
def grantedProbes (cfg : BreakerConfig) (d : BreakerData) : Nat → Nat
  | 0 => 0
  | k + 1 =>
    let r := should_attempt cfg 0 d
    (if r.1 then 1 else 0) + grantedProbes cfg r.2.2 k

/-- C1: on `update_message` and `delete_message` the precondition checks run
in exactly this order and decide the result — a missing message is
`NotFound`; a stored `group_id` differing from the given conversation is
`NotFound` (never `Forbidden`); a stored `org_id` differing from the given
one is `Forbidden` together with the security-violation log record; a sender
differing from `user_id` (for delete, only when `is_admin` is false) is
`Forbidden`; otherwise the write proceeds. -/
theorem update_delete_precondition_ladder (store : Store) (now : Int)
    (mid : Nat) (gid oid uid content : String) (is_admin : Bool) :
    (storeGet store mid = none →
      (update_message store now mid gid oid uid content).result
          = .error (.notFound "Message not found")
      ∧ (delete_message store now mid gid oid uid is_admin).result
          = .error (.notFound "Message not found"))
    ∧ (∀ m, storeGet store mid = some m →
        (m.group_id ≠ gid →
          (update_message store now mid gid oid uid content).result
              = .error (.notFound "Message not found")
          ∧ (delete_message store now mid gid oid uid is_admin).result
              = .error (.notFound "Message not found"))
        ∧ (m.group_id = gid → m.org_id ≠ oid →
          (update_message store now mid gid oid uid content).result
              = .error (.forbidden "Not authorized to update this message")
          ∧ LogRecord.crossOrgBlocked "update" mid
              ∈ (update_message store now mid gid oid uid content).logs
          ∧ (delete_message store now mid gid oid uid is_admin).result
              = .error (.forbidden "Not authorized to delete this message")
          ∧ LogRecord.crossOrgBlocked "delete" mid
              ∈ (delete_message store now mid gid oid uid is_admin).logs)
        ∧ (m.group_id = gid → m.org_id = oid → m.sender_id ≠ uid →
          (update_message store now mid gid oid uid content).result
              = .error (.forbidden "You can only update your own messages")
          ∧ (is_admin = false →
              (delete_message store now mid gid oid uid is_admin).result
                = .error (.forbidden "You can only delete your own messages")))
        ∧ (m.group_id = gid → m.org_id = oid →
          (m.sender_id = uid →
            (update_message store now mid gid oid uid content).result
              = .ok { m with content := content, updated_at := now })
          ∧ (is_admin = true ∨ m.sender_id = uid →
            (delete_message store now mid gid oid uid is_admin).result
              = .ok ()))) := by
  refine ⟨fun h => ?_, fun m h => ?_⟩
  · constructor <;> simp [update_message, delete_message, h]
  · refine ⟨fun hg => ?_, fun hg ho => ?_, fun hg ho hs => ?_, fun hg ho => ⟨fun hs => ?_, fun hadm => ?_⟩⟩
    · constructor <;> simp [update_message, delete_message, h, hg]
    · refine ⟨?_, ?_, ?_, ?_⟩ <;> simp [update_message, delete_message, h, hg, ho]
    · constructor
      · simp [update_message, h, hg, ho, hs]
      · intro hadm
        simp [delete_message, h, hg, ho, hs, hadm]
    · simp [update_message, h, hg, ho, hs]
    · rcases hadm with hadm | hs
      · simp [delete_message, h, hg, ho, hadm]
      · simp [delete_message, h, hg, ho, hs]

/-- Witness for C1: a concrete owner update on a one-message store succeeds
through the full ladder. -/
theorem update_delete_precondition_ladder_witness :
    (update_message
        [{ id := 1, org_id := "o1", group_id := "g1", group_name := "G",
           sender_id := "u1", content := "old", created_at := 3,
           updated_at := 3, is_deleted := false }]
        7 1 "g1" "o1" "u1" "new").result
      = .ok { id := 1, org_id := "o1", group_id := "g1", group_name := "G",
              sender_id := "u1", content := "new", created_at := 3,
              updated_at := 7, is_deleted := false } := by
  have h := update_delete_precondition_ladder
    [{ id := 1, org_id := "o1", group_id := "g1", group_name := "G",
       sender_id := "u1", content := "old", created_at := 3,
       updated_at := 3, is_deleted := false }]
    7 1 "g1" "o1" "u1" "new" false
  exact ((h.2 _ rfl).2.2.2 rfl rfl).1 rfl

/-- C10: when `update_message` or `delete_message` fails with `NotFound` or
`Forbidden`, the store is unchanged and no socket event is broadcast — every
precondition check runs before any write or broadcast. -/
theorem update_delete_failure_atomic (store : Store) (now : Int) (mid : Nat)
    (gid oid uid content : String) (is_admin : Bool) :
    (∀ e, (update_message store now mid gid oid uid content).result = .error e →
      (update_message store now mid gid oid uid content).store = store
      ∧ (update_message store now mid gid oid uid content).events = [])
    ∧ (∀ e, (delete_message store now mid gid oid uid is_admin).result = .error e →
      (delete_message store now mid gid oid uid is_admin).store = store
      ∧ (delete_message store now mid gid oid uid is_admin).events = []) := by
  constructor
  · intro e he
    unfold update_message at *
    cases h : storeGet store mid <;> simp [h] at he ⊢
    split_ifs at he ⊢ <;> simp_all
  · intro e he
    unfold delete_message at *
    cases h : storeGet store mid <;> simp [h] at he ⊢
    split_ifs at he ⊢ <;> simp_all

/-- Witness for C10: a concrete cross-org delete attempt leaves the store
untouched and broadcasts nothing. -/
theorem update_delete_failure_atomic_witness :
    (delete_message
        [{ id := 1, org_id := "o1", group_id := "g1", group_name := "G",
           sender_id := "u1", content := "c", created_at := 3,
           updated_at := 3, is_deleted := false }]
        7 1 "g1" "o2" "u1" false).store
      = [{ id := 1, org_id := "o1", group_id := "g1", group_name := "G",
           sender_id := "u1", content := "c", created_at := 3,
           updated_at := 3, is_deleted := false }]
    ∧ (delete_message
        [{ id := 1, org_id := "o1", group_id := "g1", group_name := "G",
           sender_id := "u1", content := "c", created_at := 3,
           updated_at := 3, is_deleted := false }]
        7 1 "g1" "o2" "u1" false).events = [] := by
  have h := update_delete_failure_atomic
    [{ id := 1, org_id := "o1", group_id := "g1", group_name := "G",
       sender_id := "u1", content := "c", created_at := 3,
       updated_at := 3, is_deleted := false }]
    7 1 "g1" "o2" "u1" "x" false
  exact h.2 (.forbidden "Not authorized to delete this message") rfl

/-- Supporting fact for C2: the aggregation pipeline in the body of
`get_messages` (`app/services/chat_service.py`, lines 195-233) implements
exactly the claimed behaviour — every message of the page slice carries the
requested `org_id` and conversation id and is not soft-deleted, the slice is
sorted newest-first by `created_at`, and the total counts exactly the stored
messages matching the three-part filter. -/
theorem messagesPipeline_page_properties (store : Store) (oid gid : String)
    (page page_size : Nat) :
    (∀ m ∈ (messagesPipeline store oid gid page page_size).1,
      m.org_id = oid ∧ m.group_id = gid ∧ m.is_deleted = false)
    ∧ (messagesPipeline store oid gid page page_size).1.Pairwise
        (fun a b => b.created_at ≤ a.created_at)
    ∧ (messagesPipeline store oid gid page page_size).2
        = store.countP (matchFilter oid gid) := by
  have hmsgs : (messagesPipeline store oid gid page page_size).1 =
      (((store.filter (matchFilter oid gid)).insertionSort newestFirst).drop
        ((page - 1) * page_size)).take page_size := rfl
  have htotal : (messagesPipeline store oid gid page page_size).2 =
      (store.filter (matchFilter oid gid)).length := rfl
  have hsub : (messagesPipeline store oid gid page page_size).1.Sublist
      ((store.filter (matchFilter oid gid)).insertionSort newestFirst) := by
    rw [hmsgs]
    exact (List.take_sublist _ _).trans (List.drop_sublist _ _)
  refine ⟨?_, ?_, ?_⟩
  · intro m hm
    have hmem : m ∈ (store.filter (matchFilter oid gid)).insertionSort newestFirst :=
      hsub.mem hm
    have hmem2 : m ∈ store.filter (matchFilter oid gid) :=
      (List.perm_insertionSort newestFirst _).mem_iff.mp hmem
    have hfilter := List.of_mem_filter hmem2
    simp only [matchFilter, Bool.and_eq_true, beq_iff_eq] at hfilter
    exact ⟨hfilter.1.1, hfilter.1.2, hfilter.2⟩
  · have hsorted := List.sorted_insertionSort newestFirst
      (store.filter (matchFilter oid gid))
    exact hsorted.sublist hsub
  · rw [htotal, List.countP_eq_length_filter]

/-- C2: the claim describes the intended list behaviour, but the code cannot
execute it — `_verify_group_access` passes the keyword argument `user_token`
to `GroupService.get_group_details`, whose parameters are only `group_id`
and `expected_org_id`, so every list call raises `TypeError` before the
membership check or the aggregation runs.  The page/filter/total properties
the claim states hold of the (unreachable) pipeline, see
`messagesPipeline_page_properties`. -/
theorem get_messages_type_error (group : Option GroupDetails) (store : Store)
    (oid gid uid : String) (page page_size : Nat) :
    get_messages group store oid gid uid page page_size
      = .error (.typeError
          "get_group_details() got an unexpected keyword argument: user_token") :=
  rfl

/-- Counterexample to C3: a cached negative entry makes
`AuthorizationService.check_permission` raise
`ForbiddenError("Permission denied: chat:read")` — the denial is an
exception, not a returned `Denied` value. -/
theorem resolver_denial_raises_counterexample :
    (check_permission defaultBreakerConfig 0 initialBreaker (some false)
        .timeout false "chat:read").1
      = .forbiddenErr "Permission denied: chat:read"
    ∧ (check_permission defaultBreakerConfig 0 initialBreaker (some false)
        .timeout false "chat:read").1.raised = true := by
  constructor <;> rfl

/-- C3 as amended: every denial — from a cached negative entry or from a
fresh Auth-API reply with `allowed = false` — makes the resolver raise
`ForbiddenError(f"Permission denied: {permission}")`; a result value is
returned only for allowed outcomes. -/
theorem resolver_denial_behaviour (cfg : BreakerConfig) (now : Int)
    (d : BreakerData) (cached : Option Bool) (apiReply : ASReply)
    (failOpen : Bool) (perm : String) :
    (cached = some false →
      (check_permission cfg now d cached apiReply failOpen perm).1
        = .forbiddenErr ("Permission denied: " ++ perm))
    ∧ (cached = none →
      (auth_api_check cfg now d apiReply).1 = some false →
      (check_permission cfg now d cached apiReply failOpen perm).1
        = .forbiddenErr ("Permission denied: " ++ perm))
    ∧ (∀ r, (check_permission cfg now d cached apiReply failOpen perm).1 = .ok r →
        r.allowed = true) := by
  refine ⟨fun hc => ?_, fun hc hapi => ?_, fun r hr => ?_⟩
  · simp [check_permission, hc]
  · subst hc
    simp only [check_permission]
    cases hcall : auth_api_check cfg now d apiReply with
    | mk dec d1 =>
      rw [hcall] at hapi
      simp at hapi
      subst hapi
      simp
  · unfold check_permission at hr
    cases cached with
    | some b =>
      cases b with
      | false => simp at hr
      | true =>
        simp at hr
        rw [← hr]
    | none =>
      cases hcall : auth_api_check cfg now d apiReply with
      | mk dec d1 =>
        rw [hcall] at hr
        cases dec with
        | some allowed =>
          by_cases ha : allowed <;> simp [ha] at hr <;> simp [← hr]
        | none =>
          by_cases hf : failOpen <;> simp [hf] at hr <;> simp [← hr]

/-- Witness for C3 (amended): a fresh Auth-API denial (HTTP 200,
`allowed=false`) is raised as `ForbiddenError`. -/
theorem resolver_denial_behaviour_witness :
    (check_permission defaultBreakerConfig 0 initialBreaker none
        (.status 200 false) false "chat:write").1
      = .forbiddenErr "Permission denied: chat:write" := by
  have h := resolver_denial_behaviour defaultBreakerConfig 0 initialBreaker none
    (.status 200 false) false "chat:write"
  exact h.2.1 rfl rfl

/-- Counterexample to C4: an HTTP 403 reply from the Auth-API is treated by
`AuthAPIClient.check_permission` as an explicit denial decision (`some
false`) and is recorded as a breaker success (the state is untouched, no
failure counted), not as a circuit-breaker failure without a decision. -/
theorem auth_api_403_counterexample :
    auth_api_check defaultBreakerConfig 0 initialBreaker (.status 403 true)
      = (some false, initialBreaker) := by
  decide

/-- C4 as amended: when the breaker admits the call, an HTTP 200 reply is
decided by its `allowed` boolean and recorded as a success; an HTTP 403
reply is also treated as a denial decision and recorded as a success; every
other HTTP status, and every timeout, connection failure or unexpected
error, is recorded as a breaker failure and produces no decision; when the
breaker refuses the call nothing is recorded. -/
theorem auth_api_reply_classification (cfg : BreakerConfig) (now : Int)
    (d : BreakerData) (reply : ASReply) :
    ((should_attempt cfg now d).1 = true →
      (∀ a, reply = .status 200 a →
        auth_api_check cfg now d reply
          = (some a, record_success (should_attempt cfg now d).2.2))
      ∧ (∀ a, reply = .status 403 a →
        auth_api_check cfg now d reply
          = (some false, record_success (should_attempt cfg now d).2.2))
      ∧ (∀ c a, reply = .status c a → c ≠ 200 → c ≠ 403 →
        auth_api_check cfg now d reply
          = (none, record_failure cfg now (should_attempt cfg now d).2.2))
      ∧ (reply = .timeout ∨ reply = .connectError ∨ reply = .otherExc →
        auth_api_check cfg now d reply
          = (none, record_failure cfg now (should_attempt cfg now d).2.2)))
    ∧ ((should_attempt cfg now d).1 = false →
      auth_api_check cfg now d reply = (none, (should_attempt cfg now d).2.2)) := by
  constructor
  · intro hgate
    refine ⟨fun a ha => ?_, fun a ha => ?_, fun c a ha hc200 hc403 => ?_, fun ha => ?_⟩
    · subst ha
      unfold auth_api_check
      cases hs : should_attempt cfg now d with
      | mk b rest =>
        rw [hs] at hgate
        cases rest with
        | mk st d1 => simp at hgate; subst hgate; simp [hs]
    · subst ha
      unfold auth_api_check
      cases hs : should_attempt cfg now d with
      | mk b rest =>
        rw [hs] at hgate
        cases rest with
        | mk st d1 => simp at hgate; subst hgate; simp [hs]
    · subst ha
      unfold auth_api_check
      cases hs : should_attempt cfg now d with
      | mk b rest =>
        rw [hs] at hgate
        cases rest with
        | mk st d1 =>
          simp at hgate
          subst hgate
          simp [hs, hc200, hc403]
    · unfold auth_api_check
      cases hs : should_attempt cfg now d with
      | mk b rest =>
        rw [hs] at hgate
        cases rest with
        | mk st d1 =>
          simp at hgate
          subst hgate
          rcases ha with ha | ha | ha <;> subst ha <;> simp [hs]
  · intro hgate
    unfold auth_api_check
    cases hs : should_attempt cfg now d with
    | mk b rest =>
      rw [hs] at hgate
      cases rest with
      | mk st d1 => simp at hgate; subst hgate; simp [hs]

/-- Witness for C4 (amended): a concrete HTTP 500 reply against a closed
breaker yields no decision and one recorded failure. -/
theorem auth_api_reply_classification_witness :
    auth_api_check defaultBreakerConfig 0 initialBreaker (.status 500 true)
      = (none, record_failure defaultBreakerConfig 0 initialBreaker) := by
  have h := auth_api_reply_classification defaultBreakerConfig 0 initialBreaker
    (.status 500 true)
  exact (h.1 rfl).2.2.1 500 true rfl (by decide) (by decide)

/-- Counterexample to C5: the input `"<b></b>"` sanitizes to the empty
string, yet `MessageCreate` accepts it — pydantic's `min_length=1` runs on
the raw input before the (mode `after`) sanitizer, and the sanitized value
is not re-validated. -/
theorem message_create_empty_counterexample :
    message_create_validate "<b></b>" = some ""
    ∧ sanitize_content "<b></b>" = "" := by
  constructor <;> rfl

/-- C5 as amended: the stored content is the input with markup stripped and
whitespace trimmed, but the length bounds are enforced on the raw input
before sanitization — the call is rejected exactly when the raw input is
empty or longer than 10,000 characters; an input sanitizing to the empty
string is accepted (stored empty) when its raw form is nonempty, and a raw
input over 10,000 characters is rejected even when its sanitized form would
fit. -/
theorem message_create_raw_bounds (raw : String) :
    (message_create_validate raw = none ↔
      (raw.length = 0 ∨ raw.length > 10000))
    ∧ (∀ s, message_create_validate raw = some s → s = sanitize_content raw) := by
  constructor
  · unfold message_create_validate
    by_cases h : 1 ≤ raw.length ∧ raw.length ≤ 10000
    · simp [h]
      omega
    · simp [h]
      omega
  · intro s hs
    unfold message_create_validate at hs
    by_cases h : 1 ≤ raw.length ∧ raw.length ≤ 10000 <;> simp [h] at hs
    exact hs.symm

/-- Witness for C5 (amended): the empty raw input is rejected and the
accepted input `"  hi  "` is stored trimmed as `"hi"`. -/
theorem message_create_raw_bounds_witness :
    message_create_validate "" = none
    ∧ sanitize_content "  hi  " = "hi" := by
  refine ⟨(message_create_raw_bounds "").1.mpr (Or.inl rfl), ?_⟩
  have h := (message_create_raw_bounds "  hi  ").2 (sanitize_content "  hi  ")
  rw [h rfl]
  rfl

/-- Counterexample to C6: `ServiceTokenManager.get_token` with no cached
token and an Auth-API grant of `expires_in = 60` returns the fresh token
even though its `expires_at - now` is 60 seconds, well under the 5-minute
margin the claim asserts for every returned token. -/
theorem get_token_margin_counterexample :
    get_token 0 "fresh" (some 60) { token := none, expires_at := none }
      = ("fresh", { token := some "fresh", expires_at := some 60 })
    ∧ ((60 : Int) - 0 ≤ 300) := by
  constructor <;> decide

/-- C6 as amended: the five-minute margin governs only reuse of the cached
token — a cached token is returned (with the state untouched) exactly when
`expires_at - now > 300` seconds; otherwise `_acquire_token` runs and the
freshly granted token is returned with `expires_at = now + expires_in`
regardless of how small `expires_in` is. -/
theorem get_token_cache_margin (now : Int) (tok : String) (ei : Option Int)
    (st : TokenState) :
    (∀ t e, st.token = some t → st.expires_at = some e → e > now + 300 →
      get_token now tok ei st = (t, st))
    ∧ (∀ t e, st.token = some t → st.expires_at = some e → ¬ e > now + 300 →
      get_token now tok ei st = (tok, acquire_token now tok ei st))
    ∧ (st.token = none ∨ st.expires_at = none →
      get_token now tok ei st = (tok, acquire_token now tok ei st))
    ∧ (acquire_token now tok ei st).expires_at = some (now + ei.getD 3600) := by
  refine ⟨fun t e ht he hm => ?_, fun t e ht he hm => ?_, fun h => ?_, rfl⟩
  · simp [get_token, ht, he, hm]
  · simp [get_token, ht, he, hm]
  · rcases h with h | h
    · cases he : st.expires_at <;> simp [get_token, h, he]
    · cases ht : st.token <;> simp [get_token, h, ht]

/-- Witness for C6 (amended): a cached token with a 400-second margin is
reused untouched. -/
theorem get_token_cache_margin_witness :
    get_token 0 "fresh" (some 3600) { token := some "cached", expires_at := some 400 }
      = ("cached", { token := some "cached", expires_at := some 400 }) := by
  have h := get_token_cache_margin 0 "fresh" (some 3600)
    { token := some "cached", expires_at := some 400 }
  exact h.1 "cached" 400 rfl rfl (by decide)

/-- In the half-open state, consecutive `should_attempt` calls grant at most
the remaining probe budget. -/
theorem grantedProbes_le (cfg : BreakerConfig) :
    ∀ (k : Nat) (d : BreakerData), d.state = .half_open →
      grantedProbes cfg d k ≤ cfg.half_open_max_calls - d.half_open_attempts := by
  intro k
  induction k with
  | zero => intro d _; simp [grantedProbes]
  | succ n ih =>
    intro d hd
    by_cases hlt : d.half_open_attempts < cfg.half_open_max_calls
    · have hstep : should_attempt cfg 0 d =
          (true, .half_open, { d with half_open_attempts := d.half_open_attempts + 1 }) := by
        simp [should_attempt, hd, hlt]
      have hrec := ih { d with half_open_attempts := d.half_open_attempts + 1 } hd
      simp only [grantedProbes, hstep]
      simp at hrec ⊢
      omega
    · have hstep : should_attempt cfg 0 d = (false, .half_open, d) := by
        simp [should_attempt, hd, hlt]
      have hrec := ih d hd
      simp only [grantedProbes, hstep]
      simp at hrec ⊢
      omega

/-- Counterexample to C7: with the default configuration (cool-down 30 s) an
open breaker whose last failure was exactly 30 seconds ago still blocks the
call — `now - last_failure ≥ cool_down` holds, yet the state does not move
to half-open, because the code requires strictly more than the cool-down to
elapse. -/
theorem circuit_breaker_cooldown_boundary :
    should_attempt defaultBreakerConfig 30
        { state := .open_, failure_count := 5, last_failure_time := some 0,
          half_open_attempts := 0 }
      = (false, .open_,
          { state := .open_, failure_count := 5, last_failure_time := some 0,
            half_open_attempts := 0 })
    ∧ (30 : Int) - 0 ≥ defaultBreakerConfig.timeout := by
  constructor <;> decide

/-- C7 as amended: from `closed`, the T-th consecutive recorded failure
opens the breaker (successes reset the counter); while `open_`, calls are
blocked until strictly more than `cool_down` seconds have passed since the
last failure, after which the first caller moves the state to half-open;
in half-open at most `P` probes are granted, any recorded failure reopens
the breaker, and the first recorded success closes it and resets the
failure counter. -/
theorem circuit_breaker_transitions (cfg : BreakerConfig) (now : Int)
    (d : BreakerData) :
    (d.state = .closed →
      ((record_failure cfg now d).state = .open_ ↔
        d.failure_count + 1 ≥ cfg.threshold))
    ∧ (d.state = .closed → (record_success d).failure_count = 0)
    ∧ (d.state = .closed → (should_attempt cfg now d).1 = true)
    ∧ (d.state = .open_ → ∀ lf, d.last_failure_time = some lf →
      should_attempt cfg now d =
        if now - lf > cfg.timeout then
          (true, .half_open, { d with state := .half_open, half_open_attempts := 0 })
        else
          (false, .open_, d))
    ∧ (d.state = .half_open →
      should_attempt cfg now d =
        if d.half_open_attempts < cfg.half_open_max_calls then
          (true, .half_open, { d with half_open_attempts := d.half_open_attempts + 1 })
        else
          (false, .half_open, d))
    ∧ (d.state = .half_open → ∀ k,
      grantedProbes cfg d k ≤ cfg.half_open_max_calls - d.half_open_attempts)
    ∧ (d.state = .half_open → (record_failure cfg now d).state = .open_)
    ∧ (d.state = .half_open →
      record_success d =
        { d with state := .closed, failure_count := 0, half_open_attempts := 0 }) := by
  refine ⟨fun hd => ?_, fun hd => ?_, fun hd => ?_, fun hd lf hlf => ?_,
    fun hd => ?_, fun hd k => grantedProbes_le cfg k d hd, fun hd => ?_, fun hd => ?_⟩
  · unfold record_failure
    rw [hd]
    by_cases hth : d.failure_count + 1 ≥ cfg.threshold <;> simp [hth]
  · simp [record_success, hd]
  · simp [should_attempt, hd]
  · rw [should_attempt, hd, hlf]
  · rw [should_attempt, hd]
  · simp [record_failure, hd]
  · simp [record_success, hd]

/-- Witness for C7 (amended): with the default configuration, the fifth
consecutive failure from a fresh closed breaker opens it. -/
theorem circuit_breaker_transitions_witness :
    (record_failure defaultBreakerConfig 0
        { state := .closed, failure_count := 4, last_failure_time := some 0,
          half_open_attempts := 0 }).state = .open_ := by
  have h := circuit_breaker_transitions defaultBreakerConfig 0
    { state := .closed, failure_count := 4, last_failure_time := some 0,
      half_open_attempts := 0 }
  exact (h.1 rfl).mpr (by decide)

/-- Counterexample to C8: a token with a valid signature, unexpired `exp`,
present `sub` and `type=access` but NO `org_id` claim is accepted by the
validator with `org_id = none` — a missing `org_id` is not a hard failure
(`OAuthToken.org_id` is declared `Optional[str] = None`). -/
theorem token_missing_org_counterexample :
    decode_token_string true 0
        { sub := some "u1", org_id := none, type_ := some "access",
          exp := some 3600, iat := some 0, scope := some "chat:read",
          client_id := none, jti := none }
      = .ok { user_id := "u1", client_id := "unknown", scopes := ["chat:read"],
              org_id := none, token_id := none, issued_at := 0,
              expires_at := 3600 } := by
  rfl

/-- C8 as amended: validation hard-fails on a bad signature, on an elapsed
`exp`, on a `type` claim other than `"access"` and on a missing `sub` claim;
a token with a valid signature, unexpired `exp`, present `sub` and
`type=access` is accepted whether or not `org_id` is present — the `org_id`
claim is optional and carried through as-is. -/
theorem token_validation_requirements (sigValid : Bool) (now : Int)
    (p : JwtPayload) :
    (sigValid = false →
      decode_token_string sigValid now p = .error .badSignature)
    ∧ (∀ e, sigValid = true → p.exp = some e → e ≤ now →
      decode_token_string sigValid now p = .error .expired)
    ∧ (sigValid = true → p.exp.any (fun e => e ≤ now) = false →
      p.iat.any (fun i => i > now) = false → p.type_ ≠ some "access" →
      decode_token_string sigValid now p = .error .badType)
    ∧ (sigValid = true → p.exp.any (fun e => e ≤ now) = false →
      p.iat.any (fun i => i > now) = false → p.type_ = some "access" →
      p.sub = none →
      decode_token_string sigValid now p = .error (.missingClaim "sub"))
    ∧ (∀ s e, sigValid = true → p.sub = some s → p.exp = some e → now < e →
      p.iat.any (fun i => i > now) = false → p.type_ = some "access" →
      decode_token_string sigValid now p
        = .ok { user_id := s, client_id := p.client_id.getD "unknown",
                scopes := splitScopes (p.scope.getD ""), org_id := p.org_id,
                token_id := p.jti, issued_at := p.iat.getD now,
                expires_at := e }) := by
  refine ⟨fun hs => ?_, fun e hs he hexp => ?_, fun hs hexp hiat ht => ?_,
    fun hs hexp hiat ht hsub => ?_, fun s e hs hsub he hexp hiat ht => ?_⟩
  · simp [decode_token_string, jwtDecode, hs]
  · simp [decode_token_string, jwtDecode, hs, he, hexp]
  · simp [decode_token_string, jwtDecode, hs, hexp, hiat, ht]
  · simp [decode_token_string, jwtDecode, from_jwt_payload, hs, hexp, hiat, ht, hsub]
  · have hne : ¬ e ≤ now := by omega
    simp [decode_token_string, jwtDecode, from_jwt_payload, hs, hiat, ht,
      hsub, he, hne]

/-- Witness for C8 (amended): a concrete refresh token (`type="refresh"`)
with a valid signature and unexpired `exp` is rejected as a bad type. -/
theorem token_validation_requirements_witness :
    decode_token_string true 0
        { sub := some "u1", org_id := some "o1", type_ := some "refresh",
          exp := some 3600, iat := some 0, scope := none,
          client_id := none, jti := none }
      = .error .badType := by
  have h := token_validation_requirements true 0
    { sub := some "u1", org_id := some "o1", type_ := some "refresh",
      exp := some 3600, iat := some 0, scope := none,
      client_id := none, jti := none }
  exact h.2.2.1 rfl (by decide) (by decide) (by decide)


theorem encodeEntities_nil : encodeEntities [] = [] := rfl

theorem encodeEntities_cons (c : Char) (l : List Char) :
    encodeEntities (c :: l) = encodeEntity c ++ encodeEntities l := rfl

theorem trimRight_nil : trimRight [] = [] := rfl

theorem trimRight_cons (c : Char) (l : List Char) :
    trimRight (c :: l)
      = if (trimRight l).isEmpty && isPySpace c then [] else c :: trimRight l := rfl

theorem encodeEntity_ne_nil (c : Char) : encodeEntity c ≠ [] := by
  unfold encodeEntity
  split_ifs <;> simp

theorem encodeEntity_of_space (c : Char) (h : isPySpace c = true) :
    encodeEntity c = [c] := by
  have h1 : c ≠ '&' := by intro hh; subst hh; simp [isPySpace] at h
  have h2 : c ≠ '<' := by intro hh; subst hh; simp [isPySpace] at h
  have h3 : c ≠ '>' := by intro hh; subst hh; simp [isPySpace] at h
  unfold encodeEntity
  simp [h1, h2, h3]

theorem not_mem_encodeEntity (c : Char) :
    '<' ∉ encodeEntity c ∧ '>' ∉ encodeEntity c := by
  unfold encodeEntity
  split_ifs with h1 h2 h3
  · exact ⟨by decide, by decide⟩
  · exact ⟨by decide, by decide⟩
  · exact ⟨by decide, by decide⟩
  · constructor
    · simp only [List.mem_singleton]
      exact fun hh => h2 hh.symm
    · simp only [List.mem_singleton]
      exact fun hh => h3 hh.symm

theorem not_mem_encodeEntities (t : List Char) :
    '<' ∉ encodeEntities t ∧ '>' ∉ encodeEntities t := by
  induction t with
  | nil => exact ⟨by simp [encodeEntities_nil], by simp [encodeEntities_nil]⟩
  | cons c rest ih =>
    rw [encodeEntities_cons]
    refine ⟨fun hm => ?_, fun hm => ?_⟩
    · rcases List.mem_append.mp hm with hm | hm
      · exact (not_mem_encodeEntity c).1 hm
      · exact ih.1 hm
    · rcases List.mem_append.mp hm with hm | hm
      · exact (not_mem_encodeEntity c).2 hm
      · exact ih.2 hm

theorem stripTagsAux_eq_self (l : List Char) (h : '<' ∉ l) :
    stripTagsAux false l = l := by
  induction l with
  | nil => rfl
  | cons c rest ih =>
    have hc : c ≠ '<' := fun hh => h (hh ▸ List.mem_cons_self c rest)
    have hrest : '<' ∉ rest := fun hh => h (List.mem_cons_of_mem c hh)
    have ih2 := ih hrest
    rw [stripTagsAux.eq_def]
    split <;> simp_all

theorem decodeEntities_cons_ne (c : Char) (l : List Char) (h : c ≠ '&') :
    decodeEntities (c :: l) = c :: decodeEntities l := by
  rw [decodeEntities.eq_def]
  split <;> simp_all

theorem decodeEntities_encodeEntities (t : List Char) :
    decodeEntities (encodeEntities t) = t := by
  induction t with
  | nil => rfl
  | cons c rest ih =>
    rw [encodeEntities_cons]
    by_cases h1 : c = '&'
    · subst h1
      show decodeEntities ('&' :: 'a' :: 'm' :: 'p' :: ';' :: encodeEntities rest) = _
      rw [show decodeEntities ('&' :: 'a' :: 'm' :: 'p' :: ';' :: encodeEntities rest)
            = '&' :: decodeEntities (encodeEntities rest) from rfl, ih]
    · by_cases h2 : c = '<'
      · subst h2
        show decodeEntities ('&' :: 'l' :: 't' :: ';' :: encodeEntities rest) = _
        rw [show decodeEntities ('&' :: 'l' :: 't' :: ';' :: encodeEntities rest)
              = '<' :: decodeEntities (encodeEntities rest) from rfl, ih]
      · by_cases h3 : c = '>'
        · subst h3
          show decodeEntities ('&' :: 'g' :: 't' :: ';' :: encodeEntities rest) = _
          rw [show decodeEntities ('&' :: 'g' :: 't' :: ';' :: encodeEntities rest)
                = '>' :: decodeEntities (encodeEntities rest) from rfl, ih]
        · rw [show encodeEntity c = [c] by unfold encodeEntity; simp [h1, h2, h3]]
          rw [List.singleton_append, decodeEntities_cons_ne c _ h1, ih]

theorem dropWhile_flatMap_comm (g : Char → List Char)
    (hsp : ∀ c, isPySpace c = true → g c = [c])
    (hns : ∀ c, isPySpace c = false →
      ∃ d ds, g c = d :: ds ∧ isPySpace d = false) :
    ∀ l : List Char,
      (l.flatMap g).dropWhile isPySpace = (l.dropWhile isPySpace).flatMap g := by
  intro l
  induction l with
  | nil => simp
  | cons c rest ih =>
    cases hc : isPySpace c with
    | true =>
      rw [List.flatMap_cons, hsp c hc, List.singleton_append,
        List.dropWhile_cons, List.dropWhile_cons]
      simp [hc, ih]
    | false =>
      obtain ⟨d, ds, hg, hd⟩ := hns c hc
      rw [List.flatMap_cons, hg, List.cons_append, List.dropWhile_cons,
        List.dropWhile_cons]
      simp [hc, hd, hg]

theorem dropWhile_encodeEntities (t : List Char) :
    (encodeEntities t).dropWhile isPySpace
      = encodeEntities (t.dropWhile isPySpace) := by
  refine dropWhile_flatMap_comm encodeEntity encodeEntity_of_space
    (fun c hc => ?_) t
  unfold encodeEntity
  split_ifs with h1 h2 h3
  · exact ⟨'&', ['a', 'm', 'p', ';'], rfl, rfl⟩
  · exact ⟨'&', ['l', 't', ';'], rfl, rfl⟩
  · exact ⟨'&', ['g', 't', ';'], rfl, rfl⟩
  · exact ⟨c, [], rfl, hc⟩

theorem trimRight_append (xs ys : List Char) :
    trimRight (xs ++ ys)
      = if (trimRight ys).isEmpty then trimRight xs else xs ++ trimRight ys := by
  induction xs with
  | nil =>
    rw [List.nil_append]
    cases h : (trimRight ys).isEmpty with
    | true => simp [List.isEmpty_iff.mp h, trimRight_nil]
    | false => simp
  | cons c xs' ih =>
    rw [List.cons_append, trimRight_cons, ih, trimRight_cons]
    cases hys : (trimRight ys).isEmpty <;>
      cases hxs : (trimRight xs').isEmpty <;>
      cases hc : isPySpace c <;>
      simp_all [List.isEmpty_iff, List.append_eq_nil]

theorem isEmpty_encodeEntities (t : List Char) :
    (encodeEntities t).isEmpty = t.isEmpty := by
  cases t with
  | nil => rfl
  | cons c rest =>
    rw [encodeEntities_cons]
    cases hg : encodeEntity c with
    | nil => exact absurd hg (encodeEntity_ne_nil c)
    | cons d ds => simp

theorem trimRight_encodeEntity_nonspace (c : Char) (hc : isPySpace c = false) :
    trimRight (encodeEntity c) = encodeEntity c := by
  unfold encodeEntity
  split_ifs with h1 h2 h3
  · decide
  · decide
  · decide
  · simp [trimRight_cons, trimRight_nil, hc]

theorem trimRight_encodeEntities (t : List Char) :
    trimRight (encodeEntities t) = encodeEntities (trimRight t) := by
  induction t with
  | nil => rfl
  | cons c rest ih =>
    rw [encodeEntities_cons, trimRight_append, ih, isEmpty_encodeEntities,
      trimRight_cons]
    cases hr : (trimRight rest).isEmpty with
    | true =>
      have h0 : trimRight rest = [] := List.isEmpty_iff.mp hr
      cases hc : isPySpace c with
      | true =>
        simp [h0, encodeEntity_of_space c hc, trimRight_cons, trimRight_nil,
          encodeEntities_nil, hc]
      | false =>
        simp [h0, trimRight_encodeEntity_nonspace c hc, encodeEntities_cons,
          encodeEntities_nil]
    | false =>
      simp [encodeEntities_cons]

theorem pyStrip_encodeEntities (t : List Char) :
    pyStrip (encodeEntities t) = encodeEntities (pyStrip t) := by
  unfold pyStrip
  rw [dropWhile_encodeEntities, trimRight_encodeEntities]

theorem mem_trimRight (c : Char) (l : List Char) (h : c ∈ trimRight l) :
    c ∈ l := by
  induction l with
  | nil => simp [trimRight_nil] at h
  | cons d rest ih =>
    rw [trimRight_cons] at h
    split_ifs at h
    · simp at h
    · rcases List.mem_cons.mp h with h | h
      · exact h ▸ List.mem_cons_self d rest
      · exact List.mem_cons_of_mem d (ih h)

theorem mem_pyStrip (c : Char) (l : List Char) (h : c ∈ pyStrip l) : c ∈ l :=
  (List.dropWhile_sublist isPySpace).mem (mem_trimRight c _ h)

theorem dropWhile_idem (p : Char → Bool) (l : List Char) :
    (l.dropWhile p).dropWhile p = l.dropWhile p := by
  induction l with
  | nil => rfl
  | cons c rest ih =>
    rw [List.dropWhile_cons]
    by_cases h : p c <;> simp [h, ih, List.dropWhile_cons]

theorem trimRight_idem (l : List Char) :
    trimRight (trimRight l) = trimRight l := by
  induction l with
  | nil => rfl
  | cons c rest ih =>
    rw [trimRight_cons]
    cases hr : (trimRight rest).isEmpty <;> cases hc : isPySpace c <;>
      simp_all [trimRight_cons, trimRight_nil, List.isEmpty_iff]

theorem dropWhile_trimRight_comm (l : List Char) :
    (trimRight l).dropWhile isPySpace = trimRight (l.dropWhile isPySpace) := by
  induction l with
  | nil => rfl
  | cons c rest ih =>
    cases hc : isPySpace c with
    | false => simp [trimRight_cons, hc, List.dropWhile_cons]
    | true =>
      rw [trimRight_cons]
      cases hr : (trimRight rest).isEmpty with
      | true =>
        have h0 : trimRight rest = [] := List.isEmpty_iff.mp hr
        simp [hc, List.dropWhile_cons, ← ih, h0]
      | false =>
        simp [hc, hr, List.dropWhile_cons, ih]

theorem pyStrip_idem (l : List Char) : pyStrip (pyStrip l) = pyStrip l := by
  unfold pyStrip
  rw [dropWhile_trimRight_comm, dropWhile_idem, trimRight_idem]

/-- C9: content sanitization is idempotent and its output contains no tag
characters — for every string `x`, `sanitize(sanitize(x)) = sanitize(x)`,
and neither `<` nor `>` occurs in the sanitized output (the cleaner
re-escapes them as character references). -/
theorem sanitize_content_idempotent (x : String) :
    sanitize_content (sanitize_content x) = sanitize_content x
    ∧ '<' ∉ (sanitize_content x).toList
    ∧ '>' ∉ (sanitize_content x).toList := by
  unfold sanitize_content
  set t := decodeEntities (stripTagsAux false x.toList) with ht
  have hcomm : pyStrip (encodeEntities t) = encodeEntities (pyStrip t) :=
    pyStrip_encodeEntities t
  have hlt : '<' ∉ pyStrip (encodeEntities t) := fun hmem =>
    (not_mem_encodeEntities t).1 (mem_pyStrip _ _ hmem)
  have hgt : '>' ∉ pyStrip (encodeEntities t) := fun hmem =>
    (not_mem_encodeEntities t).2 (mem_pyStrip _ _ hmem)
  refine ⟨?_, hlt, hgt⟩
  show String.mk (pyStrip (encodeEntities (decodeEntities
      (stripTagsAux false (pyStrip (encodeEntities t)))))) = _
  rw [stripTagsAux_eq_self _ hlt, hcomm, decodeEntities_encodeEntities,
    pyStrip_encodeEntities, pyStrip_idem, ← hcomm]

end ChatAPI
